import Mathlib

/-!
Verification of the actor coordination and event-sourced memory subsystem
(Chimera step 3-3): a shallow embedding of the MemoryActor (STM), the
EventStore and the UserSessionActor coordinator, together with theorems
settling the frozen claims about them.

Conventions of the embedding:
* Python exceptions are modelled with `Except String`; a `.error` escaping a
  function's boundary models a raised exception, `.ok` models a normal return.
* Python `None` returns are modelled with `Option`.
* The PostgreSQL `stm_buffer` table is modelled as a `List StmRow` kept in
  insertion order; `ORDER BY created_at` clauses are modelled as list order
  under an explicit `Chrono` hypothesis (strictly increasing `created_at`).
* `asyncio` cooperative concurrency is modelled by explicit interleaving of
  the atomic segments between `await` points; the non-reentrant
  `asyncio.Lock` is a boolean in the state, and awaiting an already-held
  lock from the same task is modelled as a stuck outcome (`none`).
-/

namespace Chimera

/-! ## Configuration constants (src/config/memory.py, events.py, coordination.py) -/

namespace Config

/-- MEMORY_CONFIG stm_limit (config/memory.py). -/
def stm_limit : Nat := 25

/-- MEMORY_CONFIG cleanup_batch_size (config/memory.py). -/
def cleanup_batch_size : Nat := 10

/-- MEMORY_CONFIG retry_attempts (config/memory.py). -/
def retry_attempts : Nat := 3

/-- MEMORY_CONFIG context_max_length (config/memory.py). -/
def context_max_length : Nat := 5000

/-- EVENT_CONFIG event_batch_size (config/events.py). -/
def event_batch_size : Nat := 100

/-- EVENT_CONFIG max_event_size_bytes (config/events.py). -/
def max_event_size_bytes : Nat := 64000

/-- COORDINATION_CONFIG coordination_patterns retry_patterns memory attempts
(config/coordination.py). -/
def memory_retry_attempts : Nat := 3

end Config

/-! ## STM data model (table stm_buffer) -/

/-- One row of the stm_buffer table
(columns per the INSERT and SELECT statements in src/actors/memory_actor.py). -/
structure StmRow where
  id : Nat
  user_id : Int
  role : String
  content : String
  emotion : Option String
  mode : Option String
  created_at : Nat
deriving DecidableEq, Repr

/-- Computable check that consecutive rows have strictly increasing
created_at values. -/
def chronoB : List StmRow → Bool
  | [] => true
  | [_] => true
  | a :: b :: rest => (a.created_at < b.created_at) && chronoB (b :: rest)

/-- The modelling hypothesis that the list holding the table is in strictly
increasing created_at order (insertion order equals chronological order), so
that ORDER BY created_at ASC is list order and DESC is reverse list order. -/
def Chrono (t : List StmRow) : Prop :=
  chronoB t = true

instance (t : List StmRow) : Decidable (Chrono t) :=
  inferInstanceAs (Decidable (chronoB t = true))

/-- Result dictionary of the MemoryActor handlers: a Python dict with the
keys that the handlers in src/actors/memory_actor.py may set; a `none` field
models an absent key. -/
structure MemDict where
  success : Option Bool := none
  error : Option String := none
  message_id : Option Nat := none
  messages : Option (List StmRow) := none
  count : Option Nat := none
  total_length : Option Nat := none
  deleted_count : Option Nat := none
  remaining_count : Option Nat := none
  total_messages : Option Nat := none
  user_messages : Option Nat := none
  bot_messages : Option Nat := none
deriving DecidableEq, Repr

/-! ## MemoryActor._get_conversation_context (memory_actor.py lines 146-202) -/

/-- The SELECT of _get_conversation_context: rows of the user ordered by
created_at DESC limited to `limit` (under `Chrono`, reverse list order). -/
def fetchRecentDesc (t : List StmRow) (uid : Int) (limit : Nat) : List StmRow :=
  ((t.filter (fun r => r.user_id == uid)).reverse).take limit

/-- The accumulation loop of _get_conversation_context: walk the fetched rows
in chronological order keeping a running character total; break at the first
row whose content pushes the total over `maxLen`. Returns the accumulated
rows and the final total. -/
def buildCtx (maxLen : Nat) : List StmRow → Nat → List StmRow × Nat
  | [], total => ([], total)
  | m :: rest, total =>
    if maxLen < total + m.content.length then ([], total)
    else
      let p := buildCtx maxLen rest (total + m.content.length)
      (m :: p.1, p.2)

/-- MemoryActor._get_conversation_context on a reachable database: fetch the
most recent `limit` rows newest-first, reverse to chronological order, then
accumulate under the context_max_length cap. -/
def getConversationContext (t : List StmRow) (uid : Int) (limit : Nat) : MemDict :=
  let messages := fetchRecentDesc t uid limit
  let p := buildCtx Config.context_max_length messages.reverse 0
  { success := some true
    messages := some p.1
    count := some p.1.length
    total_length := some p.2 }

/-- Spec-side description of the fetched window: the most recent `limit` rows
of the user in chronological (oldest to newest) order. -/
def specWindow (t : List StmRow) (uid : Int) (limit : Nat) : List StmRow :=
  let rows := t.filter (fun r => r.user_id == uid)
  rows.drop (rows.length - limit)

/-- Character total of a list of turns. -/
def charTotal (l : List StmRow) : Nat :=
  (l.map (fun r => r.content.length)).sum

/-! ## MemoryActor._cleanup_old_messages (memory_actor.py lines 204-246) -/

/-- MemoryActor._cleanup_old_messages on a reachable database: count the
rows of the user; when the count exceeds stm_limit, delete the oldest
(excess + cleanup_batch_size) rows of that user (ORDER BY created_at ASC
LIMIT n, which under `Chrono` is a take of the user's rows in list order).
Returns the result dictionary and the table after the DELETE. -/
def cleanupOldMessages (t : List StmRow) (uid : Int) : MemDict × List StmRow :=
  let rows := t.filter (fun r => r.user_id == uid)
  if Config.stm_limit < rows.length then
    let excess := rows.length - Config.stm_limit
    let victims := (rows.take (excess + Config.cleanup_batch_size)).map (fun r => r.id)
    let t2 := t.filter (fun r => !(victims.contains r.id))
    ({ success := some true
       deleted_count := some excess
       remaining_count := some Config.stm_limit }, t2)
  else
    ({ success := some true
       deleted_count := some 0
       remaining_count := some rows.length }, t)

/-! ## MemoryActor._store_user_message (memory_actor.py lines 75-120) -/

instance {ε α : Type} [DecidableEq ε] [DecidableEq α] : DecidableEq (Except ε α) :=
fun x y =>
  match x, y with
  | .ok a, .ok b =>
    match decEq a b with
    | isTrue h => isTrue (h ▸ rfl)
    | isFalse h => isFalse (fun hh => h (Except.ok.inj hh))
  | .error a, .error b =>
    match decEq a b with
    | isTrue h => isTrue (h ▸ rfl)
    | isFalse h => isFalse (fun hh => h (Except.error.inj hh))
  | .ok _, .error _ => isFalse (fun hh => Except.noConfusion hh)
  | .error _, .ok _ => isFalse (fun hh => Except.noConfusion hh)

/-- Outcome of one _store_user_message call. `result` is the boundary
behaviour: `.error` would model an exception raised to the caller, `.ok none`
models the Python None return (loop range empty), `.ok (some d)` a returned
dictionary. `inserts` counts insert attempts issued, `sleeps` the
retry_delay sleeps performed between attempts. -/
structure StoreOutcome where
  result : Except String (Option MemDict)
  inserts : Nat
  sleeps : Nat
deriving DecidableEq, Repr

/-- The retry loop of _store_user_message: `ins i` is the outcome of the
insert on attempt `i` (new row id, or the storage error it raises); the
second argument is the attempt index, the third the number of remaining
attempts. On a failed attempt the code sleeps and retries while attempts
remain, and re-raises the final error once they are exhausted; `none` means
the loop body never ran (empty range). -/
def storeAttemptLoop (ins : Nat → Except String Nat) :
    Nat → Nat → Option (Except String Nat) × Nat × Nat
  | _, 0 => (none, 0, 0)
  | i, r + 1 =>
    match ins i with
    | .ok v => (some (.ok v), 1, 0)
    | .error e =>
      match r with
      | 0 => (some (.error e), 1, 0)
      | r' + 1 =>
        let p := storeAttemptLoop ins (i + 1) (r' + 1)
        (p.1, p.2.1 + 1, p.2.2 + 1)

/-- MemoryActor._store_user_message: run the retry loop over retry_attempts
attempts; a successful insert returns a success dictionary, and the error
re-raised after the final attempt is caught by the outer handler of the
function, which returns a failure dictionary instead of raising. -/
def storeUserMessage (ins : Nat → Except String Nat) : StoreOutcome :=
  let p := storeAttemptLoop ins 0 Config.retry_attempts
  match p.1 with
  | some (.ok v) =>
    ⟨.ok (some { success := some true, message_id := some v }), p.2.1, p.2.2⟩
  | some (.error e) =>
    ⟨.ok (some { success := some false, error := some e }), p.2.1, p.2.2⟩
  | none => ⟨.ok none, p.2.1, p.2.2⟩

/-! ## MemoryActor.handle_message dispatch (memory_actor.py lines 38-73) -/

/-- The data payload of a memory message: the fields the handlers read; a
`none` field models an absent dictionary key. -/
structure MsgData where
  user_id : Option Int := none
  content : Option String := none
  emotion : Option String := none
  mode : Option String := none
  limit : Option Nat := none
deriving DecidableEq, Repr

/-- Python subscript data[k]: raises KeyError when the key is absent. -/
def getKey {α : Type} (o : Option α) (k : String) : Except String α :=
  match o with
  | some v => .ok v
  | none => .error ("KeyError: " ++ k)

/-- Behaviour of the storage collaborator as seen by the MemoryActor:
the table contents for the read paths and the outcome of each write or
read, `.error`/`some e` modelling a raised storage error. -/
structure MemDb where
  stm : List StmRow
  insUser : Nat → Except String Nat
  insBot : Except String Nat
  ctxErr : Option String := none
  cleanupErr : Option String := none
  statsErr : Option String := none

/-- The store_user_message branch of handle_message: the payload fields are
subscripted before the retry loop (a KeyError propagates to handle_message),
then _store_user_message runs, whose own handler never lets the storage
error escape. -/
def storeUserMessageH (db : MemDb) (d : MsgData) : Except String (Option MemDict) := do
  let _uid ← getKey d.user_id "user_id"
  let _content ← getKey d.content "content"
  (storeUserMessage db.insUser).result

/-- The store_bot_response branch: single insert attempt, no retry loop;
the internal handler converts a storage error into a failure dictionary. -/
def storeBotResponseH (db : MemDb) (d : MsgData) : Except String MemDict := do
  let _uid ← getKey d.user_id "user_id"
  let _content ← getKey d.content "content"
  pure (match db.insBot with
    | .ok v => { success := some true, message_id := some v }
    | .error e => { success := some false, error := some e })

/-- The get_conversation_context branch: limit defaults to stm_limit via
data.get; a storage error is converted into a failure dictionary with an
empty messages list. -/
def getConversationContextH (db : MemDb) (d : MsgData) : Except String MemDict := do
  let uid ← getKey d.user_id "user_id"
  pure (match db.ctxErr with
    | some e => { success := some false, error := some e, messages := some [] }
    | none => getConversationContext db.stm uid (d.limit.getD Config.stm_limit))

/-- The cleanup_old_messages branch; a storage error is converted into a
failure dictionary. -/
def cleanupOldMessagesH (db : MemDb) (d : MsgData) : Except String MemDict := do
  let uid ← getKey d.user_id "user_id"
  pure (match db.cleanupErr with
    | some e => { success := some false, error := some e }
    | none => (cleanupOldMessages db.stm uid).1)

/-- The get_user_stats branch; a storage error is converted into a failure
dictionary. -/
def getUserStatsH (db : MemDb) (d : MsgData) : Except String MemDict := do
  let uid ← getKey d.user_id "user_id"
  pure (match db.statsErr with
    | some e => { success := some false, error := some e }
    | none =>
      let rows := db.stm.filter (fun r => r.user_id == uid)
      { success := some true
        total_messages := some rows.length
        user_messages := some ((rows.filter (fun r => r.role == "user")).length)
        bot_messages := some ((rows.filter (fun r => r.role == "assistant")).length) })

/-- MemoryActor.handle_message: dispatch on the message type string; an
unknown type yields an error dictionary, and the surrounding try/except
converts any exception raised by a branch into an error dictionary, so the
boundary result is always a normal return. -/
def memHandleMessage (db : MemDb) (mtype : String) (d : MsgData) :
    Except String (Option MemDict) :=
  let dispatch : Except String (Option MemDict) :=
    if mtype == "store_user_message" then storeUserMessageH db d
    else if mtype == "store_bot_response" then (storeBotResponseH db d).map some
    else if mtype == "get_conversation_context" then (getConversationContextH db d).map some
    else if mtype == "cleanup_old_messages" then (cleanupOldMessagesH db d).map some
    else if mtype == "get_user_stats" then (getUserStatsH db d).map some
    else .ok (some { error := some ("Unknown message type: " ++ mtype) })
  match dispatch with
  | .ok r => .ok r
  | .error e => .ok (some { error := some e })

/-! ## MemoryActor._check_and_cleanup task map (memory_actor.py lines 248-273)

One _check_and_cleanup invocation has two atomic segments separated by the
awaited row-count query: the membership check on _cleanup_tasks, and the
task creation plus map assignment. A spawned cleanup task is removed from
the map by its done callback regardless of success or failure. -/

/-- Progress of one _check_and_cleanup invocation: before the membership
check, suspended on the count query, or finished. -/
inductive TrigPhase
  | start
  | waiting
  | comp
deriving DecidableEq, Repr

/-- State of the actor's cleanup-task tracking: the keys present in
_cleanup_tasks, the spawned and not yet completed tasks (task id, user),
a fresh-task-id counter, and the number of completed cleanup runs. -/
structure CleanSt where
  tasksMap : List Int
  running : List (Nat × Int)
  nextId : Nat
  completions : Nat
deriving DecidableEq, Repr

/-- One in-flight _check_and_cleanup invocation: its user and its phase. -/
structure Trig where
  user : Int
  phase : TrigPhase
deriving DecidableEq, Repr

/-- First atomic segment of _check_and_cleanup: if the user already has a
map entry return immediately, otherwise suspend on the count query. -/
def trigCheck (s : CleanSt) (t : Trig) : CleanSt × Trig :=
  if s.tasksMap.contains t.user then (s, { t with phase := .comp })
  else (s, { t with phase := .waiting })

/-- Second atomic segment, resumed with the count `c` the query returned:
when the count exceeds stm_limit, create the cleanup task and assign the
map entry (dict assignment: at most one entry per key). -/
def trigResume (s : CleanSt) (t : Trig) (c : Nat) : CleanSt × Trig :=
  if Config.stm_limit < c then
    ({ s with
        tasksMap := if s.tasksMap.contains t.user then s.tasksMap else s.tasksMap ++ [t.user]
        running := s.running ++ [(s.nextId, t.user)]
        nextId := s.nextId + 1 }, { t with phase := .comp })
  else (s, { t with phase := .comp })

/-- Completion of a spawned cleanup task (task id `tid` for user `u`): the
done callback pops the map entry whether the task succeeded or failed
(`ok` is ignored), and the task leaves the running set. -/
def taskComplete (s : CleanSt) (tid : Nat) (u : Int) (_ok : Bool) : CleanSt :=
  { s with
      running := s.running.filter (fun p => !(p.1 == tid))
      tasksMap := s.tasksMap.filter (fun v => !(v == u))
      completions := s.completions + 1 }

/-! ## Event Store (src/events/event_store.py, src/events/base_event.py)

Events are embedded with the fields _flush_buffer serialises; the
data/metadata dictionaries are modelled as string maps, and the
json.dumps / ::jsonb / json.loads round trip at the jsonb columns is the
identity on the structured value. -/

/-- A BaseEvent as the Event Store consumes it (src/events/base_event.py). -/
structure Ev where
  event_type : String
  timestamp : Nat
  user_id : Option Int
  data : List (String × String)
  stream_id : Option String
  version : Nat
  metadata : List (String × String)
deriving DecidableEq, Repr

/-- A row of the events table as _flush_buffer inserts it and
get_events_by_stream reads it back. Modelled from the spec: the schema file
(database/schema.sql) is absent from the sources, and the INSERT in
_flush_buffer names no timestamp column, so the timestamp column is filled
by the database at insert time. -/
structure EvRow where
  event_type : String
  user_id : Int
  data : List (String × String)
  stream_id : String
  version : Nat
  metadata : List (String × String)
  timestamp : Nat
deriving DecidableEq, Repr

/-- Python `x or 0` on an optional int (used for the user_id column). -/
def pyOrInt (o : Option Int) : Int :=
  match o with
  | none => 0
  | some v => if v == 0 then 0 else v

/-- Python `x or y` on an optional string with default the empty string
(used for the stream_id column). -/
def pyOrStr (o : Option String) : String :=
  match o with
  | none => ""
  | some s => if s == "" then "" else s

/-- The tuple _flush_buffer builds for one event, completed by the database
with the insert-time timestamp `ts`. -/
def encodeRow (ts : Nat) (e : Ev) : EvRow :=
  ⟨e.event_type, pyOrInt e.user_id, e.data, pyOrStr e.stream_id, e.version, e.metadata, ts⟩

/-- EVENT_CONFIG flags read by BaseEvent.validate_event_size. -/
structure EvCfg where
  validation_enabled : Bool := true
  compression_enabled : Bool := true
  max_event_size_bytes : Nat := Config.max_event_size_bytes
deriving DecidableEq, Repr

/-- Environment of one Event Store execution: the configuration, the
serialized-size oracle for sys.getsizeof(event.json()), whether the batched
insert succeeds, and the timestamp the database assigns to inserted rows. -/
structure EvEnv where
  cfg : EvCfg
  esize : Ev → Nat
  dbOk : Bool
  dbTs : Nat

/-- BaseEvent.validate_event_size raises exactly when validation is
enabled, the serialized size exceeds the ceiling, and compression is
disabled (with compression enabled the oversized branch is a no-op). -/
def sizeRejects (cfg : EvCfg) (sz : Nat) : Bool :=
  cfg.validation_enabled && (cfg.max_event_size_bytes < sz) && !cfg.compression_enabled

/-- Mutable state of the Event Store: the in-memory buffer, whether
_buffer_lock is held by the current task, and the events table. -/
structure EvState where
  buffer : List Ev
  lockHeld : Bool
  rows : List EvRow
deriving DecidableEq, Repr

/-- Observable actions of an Event Store execution: an awaited batched
insert, recording whether _buffer_lock was held across the await and
whether the insert succeeded. -/
inductive EvObs
  | insertAwait (lockHeld : Bool) (ok : Bool)
deriving DecidableEq, Repr

/-- EventStore._flush_buffer: on an empty buffer return; otherwise copy and
clear the buffer, then await the batched insert. On insert failure the
handler re-acquires _buffer_lock to prepend the failed batch back; the lock
is non-reentrant, so when the caller already holds it that acquisition
never completes (outcome `none`: the task is stuck). -/
def flushBuffer (env : EvEnv) (s : EvState) : Option (EvState × List EvObs) :=
  if s.buffer.isEmpty then some (s, [])
  else
    let toSave := s.buffer
    let s1 : EvState := { s with buffer := [] }
    if env.dbOk then
      some ({ s1 with rows := s1.rows ++ toSave.map (encodeRow env.dbTs) },
            [EvObs.insertAwait s.lockHeld true])
    else if s1.lockHeld then none
    else some ({ s1 with buffer := toSave ++ s1.buffer },
               [EvObs.insertAwait s.lockHeld false])

/-- EventStore.save_event: an oversized event (validation raising) is caught
and the call returns False; otherwise append to the buffer under the lock
and flush immediately when the buffer has reached event_batch_size, then
return True. `none` models a call that never returns. -/
def saveEvent (env : EvEnv) (e : Ev) (s : EvState) :
    Option (Bool × EvState × List EvObs) :=
  if sizeRejects env.cfg (env.esize e) then some (false, s, [])
  else if s.lockHeld then none
  else
    let s1 : EvState := { s with lockHeld := true, buffer := s.buffer ++ [e] }
    if Config.event_batch_size ≤ s1.buffer.length then
      match flushBuffer env s1 with
      | none => none
      | some (s2, obs) => some (true, { s2 with lockHeld := false }, obs)
    else
      some (true, { s1 with lockHeld := false }, [])

/-- One iteration of EventStore._periodic_flush: take the lock and, if the
buffer is non-empty, flush while still holding it. -/
def periodicFlushTick (env : EvEnv) (s : EvState) : Option (EvState × List EvObs) :=
  if s.lockHeld then none
  else
    let s1 : EvState := { s with lockHeld := true }
    if s1.buffer.isEmpty then some ({ s1 with lockHeld := false }, [])
    else
      match flushBuffer env s1 with
      | none => none
      | some (s2, obs) => some ({ s2 with lockHeld := false }, obs)

/-- The final flush of EventStore.shutdown: flush under the lock. -/
def shutdownFlush (env : EvEnv) (s : EvState) : Option (EvState × List EvObs) :=
  if s.lockHeld then none
  else
    match flushBuffer env { s with lockHeld := true } with
    | none => none
    | some (s2, obs) => some ({ s2 with lockHeld := false }, obs)

/-- EventStore.get_events_by_stream (no after_timestamp): rows of the
stream ordered by timestamp ascending, limited. The table list is kept in
insertion order and the database assigns non-decreasing timestamps, so
list order realises the ORDER BY. -/
def getEventsByStream (rows : List EvRow) (sid : String) (limit : Nat) : List EvRow :=
  (rows.filter (fun r => r.stream_id == sid)).take limit

/-- The round trip of the spec: save event `e` into an idle empty store,
let the periodic flush persist the buffer, then fetch the events of the
stream of `e` with the default limit of 100. -/
def roundTrip (env : EvEnv) (e : Ev) : Option (List EvRow) :=
  match saveEvent env e ⟨[], false, []⟩ with
  | none => none
  | some (_, s1, _) =>
    match periodicFlushTick env s1 with
    | none => none
    | some (s2, _) => some (getEventsByStream s2.rows (pyOrStr e.stream_id) 100)

/-! ## UserSessionActor (src/actors/user_session_actor.py)

The coordinator pipeline is embedded over a behaviour record giving the
outcome of every collaborator step. save_event returns a boolean and never
raises, so event persistence steps cannot fail the pipeline; the
coordinated actor calls and the service call can return a value, expire
(asyncio.wait_for timeout) or raise. -/

/-- Outcome of one awaited collaborator call attempt. -/
inductive CallOut (α : Type)
  | value (v : α)
  | expired
  | raised (e : String)
deriving DecidableEq, Repr

/-- Events the coordinator persists, by kind: the user/bot conversation
events, the actor_coordination events with their coordination_type and
success flag, and the system events with subtype and severity. -/
inductive CoordEv
  | userMessageEv
  | botResponseEv
  | coord (ctype : String) (success : Bool)
  | sysEvent (subtype : String) (severity : String)
deriving DecidableEq, Repr

/-- Behaviour of the collaborators across one handle_user_message call:
construction of the two conversation events (their validators can raise),
the per-attempt outcomes of the three coordinated memory calls, and the
generation service call. -/
structure CoordBehavior where
  mkUserEvent : Except String Unit
  storeUser : Nat → CallOut MemDict
  getCtx : Nat → CallOut MemDict
  generation : CallOut String
  mkBotEvent : Except String Unit
  storeBot : Nat → CallOut MemDict

/-- The coordination counters of the UserSessionActor. -/
structure Metrics where
  total_messages : Nat := 0
  successful_flows : Nat := 0
  failed_flows : Nat := 0
  actor_timeouts : Nat := 0
deriving DecidableEq, Repr

/-- The retry loop of _coordinate_actor_call for the memory target
(attempts from the memory retry pattern): a value returns after saving a
response coordination event; a timeout increments the timeout counter,
saves a timeout event and retries while attempts remain, re-raising
TimeoutError on the last; any other error saves an error event and retries
while attempts remain, re-raising on the last. Returns the boundary result,
the coordination events saved, and the timeout-counter increments; the
first component is the implicit Python None return of an empty range. -/
def coordAttempts (outs : Nat → CallOut MemDict) :
    Nat → Nat → Option (Except String MemDict) × List CoordEv × Nat
  | _, 0 => (none, [], 0)
  | i, r + 1 =>
    match outs i with
    | .value v => (some (.ok v), [.coord "response" true], 0)
    | .expired =>
      match r with
      | 0 => (some (.error "TimeoutError"), [.coord "timeout" false], 1)
      | r' + 1 =>
        let p := coordAttempts outs (i + 1) (r' + 1)
        (p.1, .coord "timeout" false :: p.2.1, p.2.2 + 1)
    | .raised e =>
      match r with
      | 0 => (some (.error e), [.coord "error" false], 0)
      | r' + 1 =>
        let p := coordAttempts outs (i + 1) (r' + 1)
        (p.1, .coord "error" false :: p.2.1, p.2.2)

/-- _coordinate_actor_call for the memory target with its configured three
attempts; the attempt range is non-empty, so the boundary result is never
the implicit None (theorem coordAttempts_isSome). -/
def coordinateActorCall (outs : Nat → CallOut MemDict) :
    Option (Except String MemDict) × List CoordEv × Nat :=
  coordAttempts outs 0 Config.memory_retry_attempts

/-- _coordinate_service_call: one bounded wait, no retry; timeout and other
errors propagate. -/
def coordinateServiceCall (o : CallOut String) : Except String String :=
  match o with
  | .value v => .ok v
  | .expired => .error "TimeoutError"
  | .raised e => .error e

/-- The try body of handle_user_message, steps 1 through 8 of the pipeline:
returns the boundary result (the generated response text, or the first
unrecoverable error), the events persisted along the way, and the total of
the timeout-counter increments. -/
def pipelineRun (b : CoordBehavior) : Except String String × List CoordEv × Nat :=
  match b.mkUserEvent with
  | .error e => (.error e, [], 0)
  | .ok _ =>
    let evs0 : List CoordEv := [.userMessageEv]
    let c1 := coordinateActorCall b.storeUser
    match c1.1 with
    | none => (.error "NoneType", evs0 ++ c1.2.1, c1.2.2)
    | some (.error e) => (.error e, evs0 ++ c1.2.1, c1.2.2)
    | some (.ok _) =>
      let c2 := coordinateActorCall b.getCtx
      match c2.1 with
      | none => (.error "NoneType", evs0 ++ c1.2.1 ++ c2.2.1, c1.2.2 + c2.2.2)
      | some (.error e) => (.error e, evs0 ++ c1.2.1 ++ c2.2.1, c1.2.2 + c2.2.2)
      | some (.ok _) =>
        match coordinateServiceCall b.generation with
        | .error e => (.error e, evs0 ++ c1.2.1 ++ c2.2.1, c1.2.2 + c2.2.2)
        | .ok text =>
          match b.mkBotEvent with
          | .error e => (.error e, evs0 ++ c1.2.1 ++ c2.2.1, c1.2.2 + c2.2.2)
          | .ok _ =>
            let evs1 := evs0 ++ c1.2.1 ++ c2.2.1 ++ [.botResponseEv]
            let c3 := coordinateActorCall b.storeBot
            match c3.1 with
            | none => (.error "NoneType", evs1 ++ c3.2.1, c1.2.2 + c2.2.2 + c3.2.2)
            | some (.error e) => (.error e, evs1 ++ c3.2.1, c1.2.2 + c2.2.2 + c3.2.2)
            | some (.ok _) => (.ok text, evs1 ++ c3.2.1, c1.2.2 + c2.2.2 + c3.2.2)

/-- The fixed fallback response string of handle_user_message. -/
def fallbackText : String := "Что-то пошло не так. Давайте попробуем еще раз?"

/-- UserSessionActor.handle_user_message: count the inbound message, run the
pipeline; on success record the success metrics and the completion system
event and return the generated text; on any caught exception record the
failure metrics and the user_flow_error system event and return the fixed
fallback string. The boundary result is `.ok` in both branches: no raised
error reaches the caller. -/
def handleUserMessage (b : CoordBehavior) (m : Metrics) :
    Except String String × Metrics × List CoordEv :=
  let m1 := { m with total_messages := m.total_messages + 1 }
  let p := pipelineRun b
  match p.1 with
  | .ok text =>
    (.ok text,
     { m1 with
        successful_flows := m1.successful_flows + 1
        actor_timeouts := m1.actor_timeouts + p.2.2 },
     p.2.1 ++ [.sysEvent "user_flow_complete" "info"])
  | .error _ =>
    (.ok fallbackText,
     { m1 with
        failed_flows := m1.failed_flows + 1
        actor_timeouts := m1.actor_timeouts + p.2.2 },
     p.2.1 ++ [.sysEvent "user_flow_error" "error"])

/-! ## Concrete fixtures used by witnesses and counterexamples -/

/-- A concrete stm_buffer table: 28 rows of user 5 in chronological order. -/
def stmTable28 : List StmRow :=
  (List.range 28).map (fun i => ⟨i, 5, "user", "xx", none, none, i⟩)

/-- A concrete event with every field set. -/
def ev0 : Ev :=
  ⟨"user_message", 50, some 7, [("text", "hi")], some "user_7", 1, []⟩

/-- A second concrete event, with user id 0 (exercising the `or 0`
column default) and non-empty metadata. -/
def ev1 : Ev :=
  ⟨"bot_response", 60, some 0, [("response_text", "ok")], some "user_0", 1, [("k", "v")]⟩

/-- Default environment: default configuration, small events, the batched
insert succeeds, the database stamps rows with time 100. -/
def env0 : EvEnv := ⟨{}, fun _ => 100, true, 100⟩

/-- Environment whose batched insert fails. -/
def envFail : EvEnv := ⟨{}, fun _ => 100, false, 100⟩

/-- Environment with compression disabled and an oversized event. -/
def envNoComp : EvEnv :=
  ⟨{ compression_enabled := false }, fun _ => 100000, true, 100⟩

/-- Idle empty Event Store state. -/
def sEmpty : EvState := ⟨[], false, []⟩

/-- Idle state holding one buffered event. -/
def s1ev : EvState := ⟨[ev0], false, []⟩

/-- Idle state holding 99 buffered events: the next save reaches the
batch size of 100. -/
def s99 : EvState := ⟨List.replicate 99 ev0, false, []⟩

/-- A storage behaviour whose user-turn insert fails on every attempt. -/
def dbFail : MemDb :=
  { stm := [], insUser := fun _ => .error "db down", insBot := .ok 1 }

/-- Initial cleanup-task state: no map entries, no running tasks. -/
def cleanS0 : CleanSt := ⟨[], [], 0, 0⟩

/-- The interleaving of two _check_and_cleanup invocations for user 5 in
which both membership checks run before either task creation: both checks
see an empty map (each then suspends on the count query), then both resume
seeing a count of 30 rows and each spawns a cleanup task. -/
def raceRun : CleanSt :=
  let p1 := trigCheck cleanS0 ⟨5, .start⟩
  let p2 := trigCheck p1.1 ⟨5, .start⟩
  let q1 := trigResume p2.1 p1.2 30
  (trigResume q1.1 p2.2 30).1

/-- Coordinator behaviour in which every store_user_message attempt times
out and everything else succeeds. -/
def bFail : CoordBehavior :=
  { mkUserEvent := .ok ()
    storeUser := fun _ => .expired
    getCtx := fun _ => .value {}
    generation := .value "Echo: hi"
    mkBotEvent := .ok ()
    storeBot := fun _ => .value {} }

/-- Coordinator behaviour in which every step succeeds at once. -/
def bOk : CoordBehavior :=
  { mkUserEvent := .ok ()
    storeUser := fun _ => .value {}
    getCtx := fun _ => .value {}
    generation := .value "Echo: hi"
    mkBotEvent := .ok ()
    storeBot := fun _ => .value {} }

/-! ## Helper lemmas -/

lemma charTotal_nil : charTotal [] = 0 := rfl

lemma charTotal_cons (m : StmRow) (l : List StmRow) :
    charTotal (m :: l) = m.content.length + charTotal l := by
  simp [charTotal]

/-- The window the code fetches, put back in chronological order, is the
spec's window: the most recent `limit` user rows oldest-to-newest. -/
lemma fetchRecentDesc_reverse (t : List StmRow) (uid : Int) (limit : Nat) :
    (fetchRecentDesc t uid limit).reverse = specWindow t uid limit := by
  unfold fetchRecentDesc specWindow
  rw [← List.rtake_eq_reverse_take_reverse]
  rfl

/-- Characterisation of the accumulation loop: starting from a running
total within the cap it returns the greedy prefix, the prefix total stays
within the cap, and the next turn (when one exists) would exceed it. -/
lemma buildCtx_spec (cap : Nat) :
    ∀ (l : List StmRow) (acc : Nat), acc ≤ cap →
    ∃ k, k ≤ l.length ∧
      buildCtx cap l acc = (l.take k, acc + charTotal (l.take k)) ∧
      acc + charTotal (l.take k) ≤ cap ∧
      (k < l.length → cap < acc + charTotal (l.take (k + 1)))
  | [], acc, h =>
    ⟨0, by simp, by simp [buildCtx, charTotal], by simpa [charTotal] using h, by simp⟩
  | m :: rest, acc, h => by
    by_cases h1 : cap < acc + m.content.length
    · refine ⟨0, by simp, ?_, by simpa [charTotal] using h, ?_⟩
      · simp [buildCtx, h1, charTotal]
      · intro _
        simpa [charTotal_cons, charTotal_nil] using h1
    · push_neg at h1
      obtain ⟨k, hk, hEq, hLe, hNext⟩ := buildCtx_spec cap rest (acc + m.content.length) h1
      refine ⟨k + 1, by simpa using hk, ?_, ?_, ?_⟩
      · simp only [buildCtx, hEq, List.take_succ_cons, charTotal_cons]
        rw [if_neg (by omega : ¬(cap < acc + m.content.length))]
        simp [Nat.add_assoc]
      · rw [List.take_succ_cons, charTotal_cons]
        omega
      · intro hlt
        rw [List.take_succ_cons, charTotal_cons]
        have := hNext (by simpa using hlt)
        omega

/-- C5: get-conversation-context fetches the most recent `limit` rows
newest-first, reverses them to chronological order, then greedily
accumulates turns while the running character total stays within
context_max_length; it stops at and excludes the first turn that would
push the total over the cap, returning the accumulated list with its
count and total character length. -/
theorem C5_get_context_greedy (t : List StmRow) (uid : Int) (limit : Nat)
    (hc : Chrono t) :
    ∃ k, k ≤ (specWindow t uid limit).length ∧
      getConversationContext t uid limit =
        { success := some true
          messages := some ((specWindow t uid limit).take k)
          count := some ((specWindow t uid limit).take k).length
          total_length := some (charTotal ((specWindow t uid limit).take k)) } ∧
      charTotal ((specWindow t uid limit).take k) ≤ Config.context_max_length ∧
      (k < (specWindow t uid limit).length →
        Config.context_max_length < charTotal ((specWindow t uid limit).take (k + 1))) := by
  obtain ⟨k, hk, hEq, hLe, hNext⟩ :=
    buildCtx_spec Config.context_max_length (specWindow t uid limit) 0 (Nat.zero_le _)
  refine ⟨k, hk, ?_, by simpa using hLe, fun h => by simpa using hNext h⟩
  simp only [getConversationContext, fetchRecentDesc_reverse, hEq]
  simp

/-- Witness for C5 at a concrete table of 28 two-character turns of user 5
with limit 10 (the whole fetched window fits under the cap). -/
theorem C5_witness :
    Chrono stmTable28 ∧
    ∃ k, k ≤ (specWindow stmTable28 5 10).length ∧
      getConversationContext stmTable28 5 10 =
        { success := some true
          messages := some ((specWindow stmTable28 5 10).take k)
          count := some ((specWindow stmTable28 5 10).take k).length
          total_length := some (charTotal ((specWindow stmTable28 5 10).take k)) } ∧
      charTotal ((specWindow stmTable28 5 10).take k) ≤ Config.context_max_length ∧
      (k < (specWindow stmTable28 5 10).length →
        Config.context_max_length < charTotal ((specWindow stmTable28 5 10).take (k + 1))) :=
  ⟨by decide, C5_get_context_greedy stmTable28 5 10 (by decide)⟩

/-- Deleting by the ids of the first `n` elements leaves the drop of `n`,
when the ids are pairwise distinct. -/
lemma filter_drop_ids :
    ∀ (l : List StmRow) (n : Nat), ((l.map (fun r => r.id)).Nodup) →
    l.filter (fun r => !(((l.take n).map (fun r => r.id)).contains r.id)) = l.drop n
  | [], n, _ => by simp
  | x :: xs, 0, _ => by simp
  | x :: xs, n + 1, hn => by
    rw [List.map_cons, List.nodup_cons] at hn
    have hx : x.id ∉ xs.map (fun r => r.id) := hn.1
    have hcons :
        xs.filter (fun r => !(((x :: xs).take (n + 1)).map (fun r => r.id)).contains r.id)
          = xs.filter (fun r => !((xs.take n).map (fun r => r.id)).contains r.id) := by
      refine List.filter_congr ?_
      intro r hr
      have hne : ¬(r.id == x.id) = true := by
        intro hb
        exact hx (by
          have : r.id = x.id := by simpa using hb
          exact this ▸ List.mem_map_of_mem (fun r => r.id) hr)
      simp only [List.take_succ_cons, List.map_cons, List.contains_cons]
      simp only [Bool.not_or]
      cases hbe : (r.id == x.id) with
      | true => exact absurd hbe hne
      | false => simp
    have hhead :
        (((x :: xs).take (n + 1)).map (fun r => r.id)).contains x.id = true := by
      simp [List.take_succ_cons]
    rw [List.drop_succ_cons, ← filter_drop_ids xs n hn.2, ← hcons]
    rw [List.filter_cons]
    simp [hhead]

/-- Two members of a list with nodup ids and equal ids are equal. -/
lemma eq_of_id_eq {t : List StmRow} (hn : (t.map (fun r => r.id)).Nodup)
    {a b : StmRow} (ha : a ∈ t) (hb : b ∈ t) (hid : a.id = b.id) : a = b :=
  List.inj_on_of_nodup_map hn ha hb hid

/-- C6: when the stored turn count of a user strictly exceeds stm_limit,
cleanup deletes exactly the (count - stm_limit) + cleanup_batch_size oldest
rows of that user (rows of other users untouched); at or below the limit it
deletes nothing and reports deleted_count = 0. -/
theorem C6_cleanup_batch (t : List StmRow) (uid : Int)
    (hc : Chrono t) (hn : (t.map (fun r => r.id)).Nodup) :
    (Config.stm_limit < (t.filter (fun r => r.user_id == uid)).length →
      (cleanupOldMessages t uid).2.filter (fun r => r.user_id == uid)
          = (t.filter (fun r => r.user_id == uid)).drop
              ((t.filter (fun r => r.user_id == uid)).length - Config.stm_limit
                + Config.cleanup_batch_size) ∧
      ((t.filter (fun r => r.user_id == uid)).take
              ((t.filter (fun r => r.user_id == uid)).length - Config.stm_limit
                + Config.cleanup_batch_size)).length
          = (t.filter (fun r => r.user_id == uid)).length - Config.stm_limit
                + Config.cleanup_batch_size ∧
      (t.filter (fun r => r.user_id == uid)).take
              ((t.filter (fun r => r.user_id == uid)).length - Config.stm_limit
                + Config.cleanup_batch_size)
            ++ (cleanupOldMessages t uid).2.filter (fun r => r.user_id == uid)
          = t.filter (fun r => r.user_id == uid) ∧
      (cleanupOldMessages t uid).2.filter (fun r => !(r.user_id == uid))
          = t.filter (fun r => !(r.user_id == uid)) ∧
      (cleanupOldMessages t uid).1.deleted_count
          = some ((t.filter (fun r => r.user_id == uid)).length - Config.stm_limit)) ∧
    ((t.filter (fun r => r.user_id == uid)).length ≤ Config.stm_limit →
      cleanupOldMessages t uid
        = ({ success := some true, deleted_count := some 0,
             remaining_count := some ((t.filter (fun r => r.user_id == uid)).length) }, t)) := by
  have hcfg : Config.stm_limit = 25 ∧ Config.cleanup_batch_size = 10 := ⟨rfl, rfl⟩
  set u : StmRow → Bool := fun r => r.user_id == uid with hu
  set rows : List StmRow := t.filter u with hrows
  have hnrows : (rows.map (fun r => r.id)).Nodup := by
    refine hn.sublist ?_
    exact (List.filter_sublist t).map _
  constructor
  · intro hov
    set n : Nat := rows.length - Config.stm_limit + Config.cleanup_batch_size with hnn
    have hnlen : n ≤ rows.length := by omega
    set victims : List Nat := (rows.take n).map (fun r => r.id) with hvic
    have hout : (cleanupOldMessages t uid).2
        = t.filter (fun r => !(victims.contains r.id)) := by
      simp only [cleanupOldMessages, ← hrows, ← hu, if_pos hov]
    have hfilfil :
        (t.filter (fun r => !(victims.contains r.id))).filter u
          = rows.filter (fun r => !(victims.contains r.id)) := by
      rw [hrows, List.filter_filter, List.filter_filter]
      exact List.filter_congr (fun r _ => Bool.and_comm _ _)
    have hdrop : rows.filter (fun r => !(victims.contains r.id)) = rows.drop n := by
      rw [hvic]
      exact filter_drop_ids rows n hnrows
    have h1 : (cleanupOldMessages t uid).2.filter u = rows.drop n := by
      rw [hout, hfilfil, hdrop]
    have hlen : (rows.take n).length = n := by
      rw [List.length_take]
      omega
    have h4 : (cleanupOldMessages t uid).2.filter (fun r => !(u r))
        = t.filter (fun r => !(u r)) := by
      rw [hout, List.filter_filter]
      refine List.filter_congr ?_
      intro r hrt
      cases hnu : u r with
      | true => simp [hnu]
      | false =>
        suffices hnm : r.id ∉ victims by simp [hnu, hnm]
        intro hmem
        rw [hvic] at hmem
        obtain ⟨v, hvtk, hvid⟩ := List.mem_map.mp hmem
        have hvrows : v ∈ rows := List.mem_of_mem_take hvtk
        have hvt : v ∈ t ∧ u v = true := by
          rw [hrows] at hvrows
          exact List.mem_filter.mp hvrows
        have hveq : v = r := eq_of_id_eq hn hvt.1 hrt hvid
        have hur : u r = true := hveq ▸ hvt.2
        rw [hnu] at hur
        exact Bool.noConfusion hur
    have h5 : (cleanupOldMessages t uid).1.deleted_count
        = some (rows.length - Config.stm_limit) := by
      simp only [cleanupOldMessages, ← hrows, ← hu, if_pos hov]
    refine ⟨h1, hlen, ?_, h4, h5⟩
    rw [h1, List.take_append_drop]
  · intro hun
    simp only [cleanupOldMessages, ← hrows, ← hu, if_neg (by omega : ¬Config.stm_limit < rows.length)]

/-- Witness for C6 at the concrete table of 28 rows of user 5: the over
limit branch deletes the 13 oldest rows and reports deleted_count 3. -/
theorem C6_witness :
    (cleanupOldMessages stmTable28 5).2.filter (fun r => r.user_id == (5 : Int))
      = (stmTable28.filter (fun r => r.user_id == (5 : Int))).drop 13 ∧
    (cleanupOldMessages stmTable28 5).1.deleted_count = some 3 := by
  have h := (C6_cleanup_batch stmTable28 5 (by decide) (by decide)).1 (by decide)
  have hn13 : (stmTable28.filter (fun r => r.user_id == (5 : Int))).length
      - Config.stm_limit + Config.cleanup_batch_size = 13 := by decide
  have hn3 : (stmTable28.filter (fun r => r.user_id == (5 : Int))).length
      - Config.stm_limit = 3 := by decide
  exact ⟨hn13 ▸ h.1, hn3 ▸ h.2.2.2.2⟩

lemma storeAttemptLoop_succ (ins : Nat → Except String Nat) (i r : Nat) :
    storeAttemptLoop ins i (r + 1)
      = match ins i with
        | .ok v => (some (.ok v), 1, 0)
        | .error e =>
          match r with
          | 0 => (some (.error e), 1, 0)
          | r' + 1 =>
            let p := storeAttemptLoop ins (i + 1) (r' + 1)
            (p.1, p.2.1 + 1, p.2.2 + 1) := by
  rw [storeAttemptLoop.eq_2]

lemma storeAttemptLoop_ok (ins : Nat → Except String Nat) (i r v : Nat)
    (h : ins i = .ok v) : storeAttemptLoop ins i (r + 1) = (some (.ok v), 1, 0) := by
  rw [storeAttemptLoop_succ, h]

lemma storeAttemptLoop_err_last (ins : Nat → Except String Nat) (i : Nat) (e : String)
    (h : ins i = .error e) : storeAttemptLoop ins i 1 = (some (.error e), 1, 0) := by
  rw [show (1 : Nat) = 0 + 1 from rfl, storeAttemptLoop_succ, h]

lemma storeAttemptLoop_err_step (ins : Nat → Except String Nat) (i : Nat) (e : String)
    (r : Nat) (h : ins i = .error e) :
    storeAttemptLoop ins i (r + 1 + 1)
      = ((storeAttemptLoop ins (i + 1) (r + 1)).1,
         (storeAttemptLoop ins (i + 1) (r + 1)).2.1 + 1,
         (storeAttemptLoop ins (i + 1) (r + 1)).2.2 + 1) := by
  rw [storeAttemptLoop_succ, h]

/-- With a storage that fails on every configured attempt, the retry loop
performs all retry_attempts inserts with a sleep between consecutive
attempts, and _store_user_message returns (never raises) a failure
dictionary carrying the final attempt's error. -/
lemma storeUserMessage_fail (ins : Nat → Except String Nat)
    (h : ∀ i, i < Config.retry_attempts → ∃ e, ins i = .error e) :
    ∃ e, ins (Config.retry_attempts - 1) = .error e ∧
      storeUserMessage ins =
        ⟨.ok (some { success := some false, error := some e }),
         Config.retry_attempts, Config.retry_attempts - 1⟩ := by
  obtain ⟨e0, h0⟩ := h 0 (by decide)
  obtain ⟨e1, h1⟩ := h 1 (by decide)
  obtain ⟨e2, h2⟩ := h 2 (by decide)
  refine ⟨e2, h2, ?_⟩
  have a2 : storeAttemptLoop ins 2 1 = (some (.error e2), 1, 0) :=
    storeAttemptLoop_err_last ins 2 e2 h2
  have a1 : storeAttemptLoop ins 1 (0 + 1 + 1) = (some (.error e2), 2, 1) := by
    rw [storeAttemptLoop_err_step ins 1 e1 0 h1]
    norm_num [a2]
  have a0 : storeAttemptLoop ins 0 (1 + 1 + 1) = (some (.error e2), 3, 2) := by
    rw [storeAttemptLoop_err_step ins 0 e0 1 h0]
    norm_num [a1]
  unfold storeUserMessage
  rw [show Config.retry_attempts = 1 + 1 + 1 from rfl, a0]

lemma storeAttemptLoop_isSome (ins : Nat → Except String Nat) :
    ∀ (r i : Nat), ((storeAttemptLoop ins i (r + 1)).1).isSome = true := by
  intro r
  induction r with
  | zero =>
    intro i
    cases h : ins i with
    | ok v => simp [storeAttemptLoop_ok ins i 0 v h]
    | error e => simp [storeAttemptLoop_err_last ins i e h]
  | succ n ih =>
    intro i
    cases h : ins i with
    | ok v => simp [storeAttemptLoop_ok ins i (n + 1) v h]
    | error e =>
      rw [storeAttemptLoop_err_step ins i e n h]
      exact ih (i + 1)

/-- With the configured three attempts _store_user_message always returns a
dictionary (its boundary result is a normal return, never the implicit
None and never a raise). -/
lemma storeUserMessage_dict (ins : Nat → Except String Nat) :
    ∃ dict, (storeUserMessage ins).result = .ok (some dict) := by
  unfold storeUserMessage
  have h := storeAttemptLoop_isSome ins 2 0
  rw [show Config.retry_attempts = 2 + 1 from rfl]
  cases hm : (storeAttemptLoop ins 0 (2 + 1)).1 with
  | none => rw [hm] at h; simp at h
  | some x =>
    cases x with
    | ok v =>
      exact ⟨{ success := some true, message_id := some v }, by simp [hm]⟩
    | error e =>
      exact ⟨{ success := some false, error := some e }, by simp [hm]⟩

lemma except_bind_ok {α β : Type} (a : α) (f : α → Except String β) :
    (Except.ok a : Except String α) >>= f = f a := rfl

lemma except_bind_err {α β : Type} (e : String) (f : α → Except String β) :
    (Except.error e : Except String α) >>= f = .error e := rfl

lemma except_map_ok {α β : Type} (f : α → β) (a : α) :
    (Except.ok a : Except String α).map f = .ok (f a) := rfl

lemma except_map_err {α β : Type} (f : α → β) (e : String) :
    (Except.error e : Except String α).map f = .error e := rfl

/-- C1 counterexample: with a storage that fails on all three configured
attempts, _store_user_message does not raise the final error to its caller:
its boundary result is a normal return of the failure dictionary (an
Except.error result would model a raise). The loop made 3 insert attempts
with 2 sleeps between them. -/
theorem C1_counterexample :
    storeUserMessage (fun _ => .error "storage down")
      = ⟨.ok (some { success := some false, error := some "storage down" }), 3, 2⟩ := by
  rfl

/-- C1 (amended): when the insert fails on every one of the configured
retry_attempts attempts with the fixed retry_delay sleep between attempts,
the operation catches the final storage error after exhausting the attempts
and returns a failure dictionary carrying it to its caller, instead of
raising. -/
theorem C1_store_retry_exhaustion (ins : Nat → Except String Nat)
    (h : ∀ i, i < Config.retry_attempts → ∃ e, ins i = .error e) :
    ∃ e, ins (Config.retry_attempts - 1) = .error e ∧
      storeUserMessage ins =
        ⟨.ok (some { success := some false, error := some e }),
         Config.retry_attempts, Config.retry_attempts - 1⟩ :=
  storeUserMessage_fail ins h

/-- Witness for C1 at the always-failing storage behaviour. -/
theorem C1_witness :
    ∃ e, (fun _ : Nat => (Except.error "db down" : Except String Nat))
            (Config.retry_attempts - 1) = .error e ∧
      storeUserMessage (fun _ => .error "db down")
        = ⟨.ok (some { success := some false, error := some e }),
           Config.retry_attempts, Config.retry_attempts - 1⟩ :=
  C1_store_retry_exhaustion (fun _ => .error "db down") (fun _ _ => ⟨"db down", rfl⟩)

/-- C10: MemoryActor.handle_message is total over its message input: every
message, including one of unrecognized type, and every storage failure
yield a normal return of a result dictionary (never a raise); an unknown
type yields the error dictionary, and an exhausted store retry loop
surfaces as a success-false dictionary. -/
theorem C10_handle_message_total (db : MemDb) (mtype : String) (d : MsgData) :
    (∃ dict, memHandleMessage db mtype d = .ok (some dict)) ∧
    ((mtype ≠ "store_user_message" ∧ mtype ≠ "store_bot_response"
        ∧ mtype ≠ "get_conversation_context" ∧ mtype ≠ "cleanup_old_messages"
        ∧ mtype ≠ "get_user_stats") →
      memHandleMessage db mtype d
        = .ok (some { error := some ("Unknown message type: " ++ mtype) })) ∧
    (mtype = "store_user_message" → d.user_id ≠ none → d.content ≠ none →
      (∀ i, i < Config.retry_attempts → ∃ e, db.insUser i = .error e) →
      ∃ e, memHandleMessage db mtype d
        = .ok (some { success := some false, error := some e })) := by
  refine ⟨?_, ?_, ?_⟩
  · by_cases h1 : mtype = "store_user_message"
    · subst h1
      cases hu : d.user_id with
      | none =>
        exact ⟨{ error := some "KeyError: user_id" }, by
          simp [memHandleMessage, storeUserMessageH, getKey, hu,
            except_bind_ok, except_bind_err]⟩
      | some uu =>
        cases hco : d.content with
        | none =>
          exact ⟨{ error := some "KeyError: content" }, by
            simp [memHandleMessage, storeUserMessageH, getKey, hu, hco,
              except_bind_ok, except_bind_err]⟩
        | some cc =>
          obtain ⟨dict, hd⟩ := storeUserMessage_dict db.insUser
          exact ⟨dict, by
            simp [memHandleMessage, storeUserMessageH, getKey, hu, hco, hd,
              except_bind_ok, except_bind_err]⟩
    · by_cases h2 : mtype = "store_bot_response"
      · subst h2
        cases hu : d.user_id with
        | none =>
          exact ⟨{ error := some "KeyError: user_id" }, by
            simp [memHandleMessage, storeBotResponseH, getKey, hu,
              except_bind_ok, except_bind_err, except_map_ok, except_map_err]⟩
        | some uu =>
          cases hco : d.content with
          | none =>
            exact ⟨{ error := some "KeyError: content" }, by
              simp [memHandleMessage, storeBotResponseH, getKey, hu, hco,
                except_bind_ok, except_bind_err, except_map_ok, except_map_err]⟩
          | some cc =>
            cases hb : db.insBot with
            | ok v =>
              exact ⟨{ success := some true, message_id := some v }, by
                simp [memHandleMessage, storeBotResponseH, getKey, hu, hco, hb,
                  except_bind_ok, except_bind_err, except_map_ok, except_map_err]⟩
            | error e =>
              exact ⟨{ success := some false, error := some e }, by
                simp [memHandleMessage, storeBotResponseH, getKey, hu, hco, hb,
                  except_bind_ok, except_bind_err, except_map_ok, except_map_err]⟩
      · by_cases h3 : mtype = "get_conversation_context"
        · subst h3
          cases hu : d.user_id with
          | none =>
            exact ⟨{ error := some "KeyError: user_id" }, by
              simp [memHandleMessage, getConversationContextH, getKey, h1, h2, hu,
                except_bind_ok, except_bind_err, except_map_ok, except_map_err]⟩
          | some uu =>
            cases hce : db.ctxErr with
            | none =>
              exact ⟨getConversationContext db.stm uu (d.limit.getD Config.stm_limit), by
                simp [memHandleMessage, getConversationContextH, getKey, h1, h2, hu, hce,
                  except_bind_ok, except_bind_err, except_map_ok, except_map_err]⟩
            | some e =>
              exact ⟨{ success := some false, error := some e, messages := some [] }, by
                simp [memHandleMessage, getConversationContextH, getKey, h1, h2, hu, hce,
                  except_bind_ok, except_bind_err, except_map_ok, except_map_err]⟩
        · by_cases h4 : mtype = "cleanup_old_messages"
          · subst h4
            cases hu : d.user_id with
            | none =>
              exact ⟨{ error := some "KeyError: user_id" }, by
                simp [memHandleMessage, cleanupOldMessagesH, getKey, h1, h2, h3, hu,
                  except_bind_ok, except_bind_err, except_map_ok, except_map_err]⟩
            | some uu =>
              cases hce : db.cleanupErr with
              | none =>
                exact ⟨(cleanupOldMessages db.stm uu).1, by
                  simp [memHandleMessage, cleanupOldMessagesH, getKey, h1, h2, h3, hu, hce,
                    except_bind_ok, except_bind_err, except_map_ok, except_map_err]⟩
              | some e =>
                exact ⟨{ success := some false, error := some e }, by
                  simp [memHandleMessage, cleanupOldMessagesH, getKey, h1, h2, h3, hu, hce,
                    except_bind_ok, except_bind_err, except_map_ok, except_map_err]⟩
          · by_cases h5 : mtype = "get_user_stats"
            · subst h5
              cases hu : d.user_id with
              | none =>
                exact ⟨{ error := some "KeyError: user_id" }, by
                  simp [memHandleMessage, getUserStatsH, getKey, h1, h2, h3, h4, hu,
                    except_bind_ok, except_bind_err, except_map_ok, except_map_err]⟩
              | some uu =>
                cases hce : db.statsErr with
                | none =>
                  exact ⟨{ success := some true
                           total_messages := some ((db.stm.filter (fun r => r.user_id == uu)).length)
                           user_messages := some (((db.stm.filter (fun r => r.user_id == uu)).filter
                              (fun r => r.role == "user")).length)
                           bot_messages := some (((db.stm.filter (fun r => r.user_id == uu)).filter
                              (fun r => r.role == "assistant")).length) }, by
                    simp [memHandleMessage, getUserStatsH, getKey, h1, h2, h3, h4, hu, hce,
                      except_bind_ok, except_bind_err, except_map_ok, except_map_err]⟩
                | some e =>
                  exact ⟨{ success := some false, error := some e }, by
                    simp [memHandleMessage, getUserStatsH, getKey, h1, h2, h3, h4, hu, hce,
                      except_bind_ok, except_bind_err, except_map_ok, except_map_err]⟩
            · exact ⟨{ error := some ("Unknown message type: " ++ mtype) }, by
                simp [memHandleMessage, h1, h2, h3, h4, h5]⟩
  · rintro ⟨n1, n2, n3, n4, n5⟩
    simp [memHandleMessage, n1, n2, n3, n4, n5]
  · intro h1 hu hco hins
    subst h1
    obtain ⟨uu, huu⟩ := Option.ne_none_iff_exists'.mp hu
    obtain ⟨cc, hcc⟩ := Option.ne_none_iff_exists'.mp hco
    obtain ⟨e, _, hstore⟩ := storeUserMessage_fail db.insUser hins
    exact ⟨e, by
      simp [memHandleMessage, storeUserMessageH, getKey, huu, hcc, hstore,
        except_bind_ok, except_bind_err]⟩

/-- Witness for C10: the store branch with present fields and an
always-failing storage returns the success-false dictionary. -/
theorem C10_witness :
    ∃ e, memHandleMessage dbFail "store_user_message"
          { user_id := some 1, content := some "hi" }
        = .ok (some { success := some false, error := some e }) :=
  (C10_handle_message_total dbFail "store_user_message"
      { user_id := some 1, content := some "hi" }).2.2 rfl
    (by simp) (by simp) (fun _ _ => ⟨"db down", rfl⟩)

/-- C7 counterexample: two _check_and_cleanup invocations for user 5 that
both pass the membership check before either task creation (the two phases
are separated by the awaited count query) spawn two concurrently
outstanding cleanup tasks for that user, so at most one outstanding cleanup
task per user at any time does not hold. -/
theorem C7_counterexample :
    raceRun.running = [(0, 5), (1, 5)] ∧ raceRun.tasksMap = [5] := by
  constructor <;> rfl

/-- C7 (amended): while a map entry for a user is present a further trigger
is a no-op that spawns nothing; the entry is removed on task completion
regardless of success or failure; and a second trigger arriving after the
first has created its task (hence published its map entry) results in one
completed cleanup. Only triggers interleaving between the membership check
and the task creation can spawn duplicates (see the counterexample). -/
theorem C7_cleanup_dedup :
    (∀ (s : CleanSt) (t : Trig), s.tasksMap.contains t.user = true →
      trigCheck s t = (s, { t with phase := .comp })) ∧
    (∀ (s : CleanSt) (tid : Nat) (u : Int) (ok : Bool),
      (taskComplete s tid u ok).tasksMap.contains u = false ∧
      (taskComplete s tid u ok).completions = s.completions + 1) ∧
    (∀ (u : Int) (c : Nat) (ok : Bool), Config.stm_limit < c →
      (trigResume (trigCheck cleanS0 ⟨u, .start⟩).1 ⟨u, .waiting⟩ c).1.running = [(0, u)] ∧
      (trigResume (trigCheck cleanS0 ⟨u, .start⟩).1 ⟨u, .waiting⟩ c).1.tasksMap = [u] ∧
      trigCheck (trigResume (trigCheck cleanS0 ⟨u, .start⟩).1 ⟨u, .waiting⟩ c).1 ⟨u, .start⟩
        = ((trigResume (trigCheck cleanS0 ⟨u, .start⟩).1 ⟨u, .waiting⟩ c).1, ⟨u, .comp⟩) ∧
      taskComplete (trigResume (trigCheck cleanS0 ⟨u, .start⟩).1 ⟨u, .waiting⟩ c).1 0 u ok
        = ⟨[], [], 1, 1⟩) := by
  refine ⟨?_, ?_, ?_⟩
  · intro s t h
    have hm : t.user ∈ s.tasksMap := by simpa using h
    simp [trigCheck, hm]
  · intro s tid u ok
    constructor
    · simp [taskComplete, List.mem_filter]
    · rfl
  · intro u c ok h
    simp [trigCheck, trigResume, taskComplete, cleanS0, h, List.mem_filter]

/-- Witness for C7 at user 9 with an over-limit count of 30. -/
theorem C7_witness :
    (trigResume (trigCheck cleanS0 ⟨9, .start⟩).1 ⟨9, .waiting⟩ 30).1.running = [(0, 9)] ∧
    (trigResume (trigCheck cleanS0 ⟨9, .start⟩).1 ⟨9, .waiting⟩ 30).1.tasksMap = [9] ∧
    trigCheck (trigResume (trigCheck cleanS0 ⟨9, .start⟩).1 ⟨9, .waiting⟩ 30).1 ⟨9, .start⟩
      = ((trigResume (trigCheck cleanS0 ⟨9, .start⟩).1 ⟨9, .waiting⟩ 30).1, ⟨9, .comp⟩) ∧
    taskComplete (trigResume (trigCheck cleanS0 ⟨9, .start⟩).1 ⟨9, .waiting⟩ 30).1 0 9 true
      = ⟨[], [], 1, 1⟩ :=
  C7_cleanup_dedup.2.2 9 30 true (by decide)

lemma pyOrInt_some (v : Int) : pyOrInt (some v) = v := by
  show (if v == 0 then (0 : Int) else v) = v
  by_cases h : (v == 0) = true
  · rw [if_pos h]
    exact (eq_of_beq h).symm
  · rw [if_neg h]

lemma pyOrStr_some (s : String) : pyOrStr (some s) = s := by
  show (if s == "" then "" else s) = s
  by_cases h : (s == "") = true
  · rw [if_pos h]
    exact (eq_of_beq h).symm
  · rw [if_neg h]

/-- Any flush performed while _buffer_lock is held either observes nothing
(empty buffer) or awaits exactly one successful insert with the lock held;
a failed insert under the lock never completes. -/
lemma flushBuffer_obs (env : EvEnv) (s : EvState) (h : s.lockHeld = true) :
    ∀ r, flushBuffer env s = some r →
      r.2 = [] ∨ r.2 = [EvObs.insertAwait true true] := by
  intro r hf
  unfold flushBuffer at hf
  split at hf
  · cases hf
    exact Or.inl rfl
  · dsimp only at hf
    rw [h] at hf
    split at hf
    · cases hf
      exact Or.inr rfl
    · rw [if_pos rfl] at hf
      exact Option.noConfusion hf

/-- C8 (amended): on every completing path of the Event Store entry points
the awaited batched insert happens while _buffer_lock is held (and is the
successful one, since a failed insert under the held lock deadlocks): any
observed insert await records lockHeld = true. -/
theorem C8_insert_under_lock (env : EvEnv) (e : Ev) (s : EvState)
    (h : s.lockHeld = false) :
    (∀ r, saveEvent env e s = some r →
      r.2.2 = [] ∨ r.2.2 = [EvObs.insertAwait true true]) ∧
    (∀ r, periodicFlushTick env s = some r →
      r.2 = [] ∨ r.2 = [EvObs.insertAwait true true]) ∧
    (∀ r, shutdownFlush env s = some r →
      r.2 = [] ∨ r.2 = [EvObs.insertAwait true true]) := by
  refine ⟨?_, ?_, ?_⟩
  · intro r hs
    unfold saveEvent at hs
    split at hs
    · cases hs
      exact Or.inl rfl
    · rw [h, if_neg (by simp)] at hs
      dsimp only at hs
      split at hs
      · split at hs
        · exact Option.noConfusion hs
        · next s2 obs hf =>
          cases hs
          simpa using flushBuffer_obs env _ rfl (s2, obs) hf
      · cases hs
        exact Or.inl rfl
  · intro r hs
    unfold periodicFlushTick at hs
    rw [h, if_neg (by simp)] at hs
    dsimp only at hs
    split at hs
    · cases hs
      exact Or.inl rfl
    · split at hs
      · exact Option.noConfusion hs
      · next s2 obs hf =>
        cases hs
        simpa using flushBuffer_obs env _ rfl (s2, obs) hf
  · intro r hs
    unfold shutdownFlush at hs
    rw [h, if_neg (by simp)] at hs
    split at hs
    · exact Option.noConfusion hs
    · next s2 obs hf =>
      cases hs
      simpa using flushBuffer_obs env _ rfl (s2, obs) hf

/-- C8 counterexample: a save_event call that reaches the batch size flushes
while holding the lock: the insert await is observed with lockHeld = true,
refuting that the lock is never held across the insert await. -/
theorem C8_counterexample :
    (saveEvent env0 ev0 s99).map (fun p => p.2.2)
      = some [EvObs.insertAwait true true] := by
  rfl

/-- Witness for C8 at the one-event buffer and a periodic flush tick. -/
theorem C8_witness :
    ([EvObs.insertAwait true true] : List EvObs) = [] ∨
    ([EvObs.insertAwait true true] : List EvObs) = [EvObs.insertAwait true true] :=
  (C8_insert_under_lock env0 ev0 s1ev rfl).2.1
    (⟨[], false, [encodeRow 100 ev0]⟩, [EvObs.insertAwait true true]) rfl

/-- C3: a failing batched insert makes every production flush path stick
forever (the failure handler re-acquires the non-reentrant _buffer_lock,
which is already held at every _flush_buffer call site), with the batch
already removed from the buffer, so the events are not available for a
later flush; only a lock-free direct _flush_buffer call (as the tests
issue) performs the documented re-buffering that restores the batch in
order. -/
theorem C3_flush_failure :
    periodicFlushTick envFail s1ev = none ∧
    shutdownFlush envFail s1ev = none ∧
    saveEvent envFail ev0 s99 = none ∧
    flushBuffer envFail s1ev = some (s1ev, [EvObs.insertAwait false false]) := by
  refine ⟨rfl, rfl, rfl, rfl⟩

/-- C9: save_event returns False without raising for an oversized event
with compression disabled, returns True after a plain append and after a
successful batch-size flush, but never returns at all when the batch-size
flush's insert fails (the re-buffer path deadlocks on the held lock). -/
theorem C9_save_event_boundary :
    saveEvent envNoComp ev0 sEmpty = some (false, sEmpty, []) ∧
    saveEvent env0 ev0 sEmpty = some (true, ⟨[ev0], false, []⟩, []) ∧
    (saveEvent env0 ev0 s99).map (fun p => p.1) = some true ∧
    saveEvent envFail ev0 s99 = none := by
  refine ⟨rfl, rfl, rfl, rfl⟩

/-- C4 counterexample: the flush INSERT names no timestamp column, so the
fetched record carries the database-assigned insert time (100), not the
event's own timestamp (50); being larger, it is no truncation of it. -/
theorem C4_counterexample :
    roundTrip env0 ev0
      = some [⟨"user_message", 7, [("text", "hi")], "user_7", 1, [], 100⟩] ∧
    ev0.timestamp = 50 ∧ 50 < 100 := by
  refine ⟨rfl, rfl, by decide⟩

/-- C4 (amended): saving an event carrying a user id, flushing, then
fetching by its stream id returns a record equal to the event in
event_type, user_id, data, stream_id (and version and metadata), while the
timestamp is the one the database assigned at insert time, not derived
from the event's timestamp. -/
theorem C4_round_trip (env : EvEnv) (e : Ev) (u : Int) (sid : String)
    (hu : e.user_id = some u) (hs : e.stream_id = some sid)
    (hsz : sizeRejects env.cfg (env.esize e) = false) (hdb : env.dbOk = true) :
    roundTrip env e
      = some [⟨e.event_type, u, e.data, sid, e.version, e.metadata, env.dbTs⟩] := by
  simp [roundTrip, saveEvent, periodicFlushTick, flushBuffer, getEventsByStream,
    encodeRow, Config.event_batch_size, hsz, hdb, hu, hs, pyOrInt_some, pyOrStr_some]

/-- Witness for C4 at the concrete bot_response event of user 0. -/
theorem C4_witness :
    roundTrip env0 ev1
      = some [⟨"bot_response", 0, [("response_text", "ok")], "user_0", 1,
              [("k", "v")], 100⟩] :=
  C4_round_trip env0 ev1 0 "user_0" rfl rfl rfl rfl

/-- C2: handle_user_message never lets an exception reach its caller: its
boundary result is a normal return for every behaviour of the
collaborators. When the pipeline fails it increments failed_flows, emits
the user_flow_error coordination-error record and returns the fixed
fallback string; on full success it returns the generated response text,
increments successful_flows and emits the completion record. -/
theorem C2_never_raises (b : CoordBehavior) (m : Metrics) :
    (∃ s, (handleUserMessage b m).1 = .ok s) ∧
    (handleUserMessage b m).2.1.total_messages = m.total_messages + 1 ∧
    (∀ e, (pipelineRun b).1 = .error e →
      (handleUserMessage b m).1 = .ok fallbackText ∧
      (handleUserMessage b m).2.1.failed_flows = m.failed_flows + 1 ∧
      (handleUserMessage b m).2.1.successful_flows = m.successful_flows ∧
      CoordEv.sysEvent "user_flow_error" "error" ∈ (handleUserMessage b m).2.2) ∧
    (∀ t, (pipelineRun b).1 = .ok t →
      (handleUserMessage b m).1 = .ok t ∧
      (handleUserMessage b m).2.1.successful_flows = m.successful_flows + 1 ∧
      (handleUserMessage b m).2.1.failed_flows = m.failed_flows ∧
      CoordEv.sysEvent "user_flow_complete" "info" ∈ (handleUserMessage b m).2.2) := by
  cases hp : (pipelineRun b).1 with
  | error e =>
    refine ⟨⟨fallbackText, by simp [handleUserMessage, hp]⟩,
      by simp [handleUserMessage, hp], ?_, ?_⟩
    · intro e2 _
      refine ⟨by simp [handleUserMessage, hp], by simp [handleUserMessage, hp],
        by simp [handleUserMessage, hp], by simp [handleUserMessage, hp]⟩
    · intro t ht
      exact Except.noConfusion ht
  | ok text =>
    refine ⟨⟨text, by simp [handleUserMessage, hp]⟩,
      by simp [handleUserMessage, hp], ?_, ?_⟩
    · intro e2 he
      exact Except.noConfusion he
    · intro t ht
      cases ht
      refine ⟨by simp [handleUserMessage, hp], by simp [handleUserMessage, hp],
        by simp [handleUserMessage, hp], by simp [handleUserMessage, hp]⟩

/-- Witness for C2 at the behaviour whose store call always times out:
the call returns the fallback string, counts the failed flow and emits the
error record. -/
theorem C2_witness :
    (handleUserMessage bFail ⟨0, 0, 0, 0⟩).1 = .ok fallbackText ∧
    (handleUserMessage bFail ⟨0, 0, 0, 0⟩).2.1.failed_flows = 0 + 1 ∧
    (handleUserMessage bFail ⟨0, 0, 0, 0⟩).2.1.successful_flows = 0 ∧
    CoordEv.sysEvent "user_flow_error" "error"
      ∈ (handleUserMessage bFail ⟨0, 0, 0, 0⟩).2.2 :=
  (C2_never_raises bFail ⟨0, 0, 0, 0⟩).2.2.1 "TimeoutError" (by rfl)

end Chimera
